import Mathlib

/-!
Verification of the Platonic Solids Generator (Blender add-on).

Shallow embedding of the geometry core of `src/v2.py` (current version) and of
the template-layout operator of `src/old versions/v1.3.py`.  Coordinates are
embedded as exact rationals: every coordinate literal in the source is a finite
decimal, written here as `dec m e`, the exact value of the source literal
`m * 10 ^ (-e)`.  The Blender host's property semantics (FloatProperty /
FloatVectorProperty clamp assigned values to the declared min/max) and its
object transform semantics (world position = mesh vertex * object scale +
object location) are modelled explicitly where the claims depend on them.
-/

namespace Platonic

/-- Exact rational value of a decimal source literal: `dec m e = m / 10^e`,
so `dec 943 3` embeds the literal `0.943`. -/
def dec (m : ℤ) (e : ℕ) : ℚ := mkRat m (10 ^ e)

/-- A 3D point with exact rational coordinates. -/
structure Vec3 where
  x : ℚ
  y : ℚ
  z : ℚ
deriving DecidableEq, Repr

/-- Componentwise scaling of a vertex by a scalar. -/
def Vec3.smul (s : ℚ) (v : Vec3) : Vec3 :=
  ⟨s * v.x, s * v.y, s * v.z⟩

/-- An RGBA color with exact rational channels. -/
structure Color4 where
  r : ℚ
  g : ℚ
  b : ℚ
  a : ℚ
deriving DecidableEq, Repr

/-- The triple `(vertices, edges, faces)` returned by each solid class's
`get_geometry` method: vertex list, explicit edge list (always empty in this
code base), and face list, each face an ordered tuple of vertex indices. -/
structure Geometry where
  vertices : List Vec3
  edges : List (Nat × Nat)
  faces : List (List Nat)
deriving DecidableEq, Repr

/-- The five concrete `PlatonicSolid` subclasses. -/
inductive SolidKind where
  | TETRAHEDRON
  | CUBE
  | OCTAHEDRON
  | DODECAHEDRON
  | ICOSAHEDRON
deriving DecidableEq, Repr

/-- The enum identifier each solid class is registered under in the
`solid_classes` dict. -/
def SolidKind.key : SolidKind → String
  | .TETRAHEDRON => "TETRAHEDRON"
  | .CUBE => "CUBE"
  | .OCTAHEDRON => "OCTAHEDRON"
  | .DODECAHEDRON => "DODECAHEDRON"
  | .ICOSAHEDRON => "ICOSAHEDRON"

namespace V2

/-- `Tetrahedron.get_geometry` from `src/v2.py`:
vertices `(0.943,0,-0.333), (-0.471,-0.816,-0.333), (-0.471,0.816,-0.333), (0,0,1)`. -/
def Tetrahedron.get_geometry : Geometry :=
  { vertices := [⟨dec 943 3, 0, dec (-333) 3⟩, ⟨dec (-471) 3, dec (-816) 3, dec (-333) 3⟩,
                 ⟨dec (-471) 3, dec 816 3, dec (-333) 3⟩, ⟨0, 0, 1⟩]
    edges := []
    faces := [[0, 1, 2], [0, 1, 3], [0, 2, 3], [1, 2, 3]] }

/-- `Cube.get_geometry` from `src/v2.py`. -/
def Cube.get_geometry : Geometry :=
  { vertices := [⟨1,1,1⟩, ⟨1,-1,1⟩, ⟨-1,-1,1⟩, ⟨-1,1,1⟩,
                 ⟨1,1,-1⟩, ⟨1,-1,-1⟩, ⟨-1,-1,-1⟩, ⟨-1,1,-1⟩]
    edges := []
    faces := [[0,1,2,3], [4,5,6,7], [0,4,5,1], [1,5,6,2], [2,6,7,3], [3,7,4,0]] }

/-- `Octahedron.get_geometry` from `src/v2.py`. -/
def Octahedron.get_geometry : Geometry :=
  { vertices := [⟨0, 0, -1⟩, ⟨-1, 0, 0⟩, ⟨0, -1, 0⟩, ⟨1, 0, 0⟩, ⟨0, 1, 0⟩, ⟨0, 0, 1⟩]
    edges := []
    faces := [[0, 1, 2], [0, 2, 3], [0, 3, 4], [0, 4, 1],
              [5, 1, 2], [5, 2, 3], [5, 3, 4], [5, 4, 1]] }

/-- `Dodecahedron.get_geometry` from `src/v2.py`:
the golden-ratio literals `1.618` and `0.618` are `dec 1618 3` and `dec 618 3`. -/
def Dodecahedron.get_geometry : Geometry :=
  { vertices := [⟨1, 1, 1⟩, ⟨1, -1, 1⟩, ⟨-1, -1, 1⟩, ⟨-1, 1, 1⟩,
                 ⟨1, 1, -1⟩, ⟨1, -1, -1⟩, ⟨-1, -1, -1⟩, ⟨-1, 1, -1⟩,
                 ⟨0, dec 1618 3, dec 618 3⟩, ⟨0, dec (-1618) 3, dec 618 3⟩,
                 ⟨0, dec (-1618) 3, dec (-618) 3⟩, ⟨0, dec 1618 3, dec (-618) 3⟩,
                 ⟨dec 618 3, 0, dec 1618 3⟩, ⟨dec (-618) 3, 0, dec 1618 3⟩,
                 ⟨dec (-618) 3, 0, dec (-1618) 3⟩, ⟨dec 618 3, 0, dec (-1618) 3⟩,
                 ⟨dec 1618 3, dec 618 3, 0⟩, ⟨dec (-1618) 3, dec 618 3, 0⟩,
                 ⟨dec (-1618) 3, dec (-618) 3, 0⟩, ⟨dec 1618 3, dec (-618) 3, 0⟩]
    edges := []
    faces := [[8, 11, 4, 16, 0], [8, 11, 7, 17, 3], [9, 10, 5, 19, 1],
              [9, 10, 6, 18, 2], [12, 13, 3, 8, 0], [12, 13, 2, 9, 1],
              [15, 14, 7, 11, 4], [15, 14, 6, 10, 5], [16, 19, 1, 12, 0],
              [16, 19, 5, 15, 4], [17, 18, 2, 13, 3], [17, 18, 6, 14, 7]] }

/-- `Icosahedron.get_geometry` from `src/v2.py`. -/
def Icosahedron.get_geometry : Geometry :=
  { vertices := [⟨0, 1, dec 1618 3⟩, ⟨0, -1, dec 1618 3⟩,
                 ⟨0, 1, dec (-1618) 3⟩, ⟨0, -1, dec (-1618) 3⟩,
                 ⟨dec 1618 3, 0, 1⟩, ⟨dec 1618 3, 0, -1⟩,
                 ⟨dec (-1618) 3, 0, 1⟩, ⟨dec (-1618) 3, 0, -1⟩,
                 ⟨1, dec 1618 3, 0⟩, ⟨-1, dec 1618 3, 0⟩,
                 ⟨1, dec (-1618) 3, 0⟩, ⟨-1, dec (-1618) 3, 0⟩]
    edges := []
    faces := [[0, 1, 4], [0, 1, 6], [2, 3, 5], [2, 3, 7],
              [4, 5, 8], [4, 5, 10], [6, 7, 9], [6, 7, 11],
              [8, 9, 0], [8, 9, 2], [10, 11, 1], [10, 11, 3],
              [0, 4, 8], [1, 4, 10], [1, 6, 11], [0, 6, 9],
              [2, 5, 8], [3, 5, 10], [3, 7, 11], [2, 7, 9]] }

/-- Dispatch of `get_geometry` over the five solid classes of `src/v2.py`. -/
def get_geometry : SolidKind → Geometry
  | .TETRAHEDRON => Tetrahedron.get_geometry
  | .CUBE => Cube.get_geometry
  | .OCTAHEDRON => Octahedron.get_geometry
  | .DODECAHEDRON => Dodecahedron.get_geometry
  | .ICOSAHEDRON => Icosahedron.get_geometry

/-- The `solid_classes` dict of `src/v2.py`, mapping the enum key to the class. -/
def solid_classes : List (String × SolidKind) :=
  [("TETRAHEDRON", .TETRAHEDRON),
   ("CUBE", .CUBE),
   ("OCTAHEDRON", .OCTAHEDRON),
   ("DODECAHEDRON", .DODECAHEDRON),
   ("ICOSAHEDRON", .ICOSAHEDRON)]

/-- Python `dict.get(key, default)` on an association list. -/
def dictGet (d : List (String × SolidKind)) (key : String) (dflt : SolidKind) : SolidKind :=
  match d.find? (fun p => p.1 == key) with
  | some p => p.2
  | none => dflt

/-- Blender host semantics: assigning a value to a FloatProperty with declared
`min` and `max` stores the value clamped into `[min, max]`. -/
def floatPropSet (lo hi v : ℚ) : ℚ := max lo (min hi v)

/-- Assignment to the `scale` FloatProperty of `PlatonicSolidProperties`
(`min=0.1`, `max=10.0` in `src/v2.py`). -/
def scaleSet (v : ℚ) : ℚ := floatPropSet (dec 1 1) 10 v

/-- Assignment to the `color` FloatVectorProperty of `PlatonicSolidProperties`
(`min=0.0`, `max=1.0`, `size=4` in `src/v2.py`): each channel is clamped. -/
def colorSet (c : Color4) : Color4 :=
  ⟨floatPropSet 0 1 c.r, floatPropSet 0 1 c.g, floatPropSet 0 1 c.b, floatPropSet 0 1 c.a⟩

/-- The `PlatonicSolidProperties` PropertyGroup state of `src/v2.py`. -/
structure PlatonicSolidProperties where
  shape_type : String
  color : Color4
  scale : ℚ
  clear_before_create : Bool
deriving DecidableEq

/-- The PropertyGroup state reached by assigning the given values through the
Blender property setters (which clamp `scale` and `color`). -/
def mkProps (shape : String) (c : Color4) (s : ℚ) (clear : Bool) : PlatonicSolidProperties :=
  { shape_type := shape, color := colorSet c, scale := scaleSet s, clear_before_create := clear }

/-- The scene object produced by one generation action: the mesh data built by
`SolidBuilder.create_mesh` plus the object-level scale, location and material
color set on it. -/
structure BlenderObject where
  name : String
  meshVertices : List Vec3
  meshEdges : List (Nat × Nat)
  meshFaces : List (List Nat)
  scale : ℚ × ℚ × ℚ
  location : Vec3
  color : Color4
deriving DecidableEq

/-- `OBJECT_OT_generate_platonic.execute` from `src/v2.py`: looks the shape key
up in `solid_classes` with `Tetrahedron` as the dict-get default, builds the
mesh from `get_geometry`, and sets `obj.scale = (scale,) * 3`.  The object's
location is left at the default origin. -/
def OBJECT_OT_generate_platonic.execute (props : PlatonicSolidProperties) : BlenderObject :=
  let solid_class := dictGet solid_classes props.shape_type SolidKind.TETRAHEDRON
  let g := get_geometry solid_class
  { name := props.shape_type
    meshVertices := g.vertices
    meshEdges := g.edges
    meshFaces := g.faces
    scale := (props.scale, props.scale, props.scale)
    location := ⟨0, 0, 0⟩
    color := props.color }

/-- Scene-host transform semantics: the world-space position of each mesh
vertex of an object is the vertex scaled componentwise by the object's scale
and then translated by the object's location. -/
def BlenderObject.worldVertices (o : BlenderObject) : List Vec3 :=
  o.meshVertices.map (fun v =>
    ⟨v.x * o.scale.1 + o.location.x, v.y * o.scale.2.1 + o.location.y,
     v.z * o.scale.2.2 + o.location.z⟩)

end V2

end Platonic

namespace Platonic

namespace V1_3

/-- `Tetrahedron.get_geometry` from `src/old versions/v1.3.py`. -/
def Tetrahedron.get_geometry : Geometry :=
  { vertices := [⟨dec 1633324 6, dec 943 3, dec (-666) 3⟩,
                 ⟨dec 204 6, dec (-1884353) 6, dec (-666) 3⟩,
                 ⟨dec (-1631796) 6, dec 942353 6, dec (-666) 3⟩,
                 ⟨0, 0, 2⟩]
    edges := []
    faces := [[0, 1, 2], [0, 1, 3], [0, 2, 3], [1, 2, 3]] }

/-- `Cube.get_geometry` from `src/old versions/v1.3.py` (side literals `1.5`). -/
def Cube.get_geometry : Geometry :=
  { vertices := [⟨dec 15 1, dec 15 1, dec 15 1⟩, ⟨dec 15 1, dec (-15) 1, dec 15 1⟩,
                 ⟨dec (-15) 1, dec (-15) 1, dec 15 1⟩, ⟨dec (-15) 1, dec 15 1, dec 15 1⟩,
                 ⟨dec 15 1, dec 15 1, dec (-15) 1⟩, ⟨dec 15 1, dec (-15) 1, dec (-15) 1⟩,
                 ⟨dec (-15) 1, dec (-15) 1, dec (-15) 1⟩, ⟨dec (-15) 1, dec 15 1, dec (-15) 1⟩]
    edges := []
    faces := [[0,1,2,3], [4,5,6,7], [0,4,5,1], [1,5,6,2], [2,6,7,3], [3,7,4,0]] }

/-- `Octahedron.get_geometry` from `src/old versions/v1.3.py`. -/
def Octahedron.get_geometry : Geometry :=
  { vertices := [⟨0, 0, dec (-15) 1⟩, ⟨dec (-15) 1, 0, 0⟩, ⟨0, dec (-15) 1, 0⟩,
                 ⟨dec 15 1, 0, 0⟩, ⟨0, dec 15 1, 0⟩, ⟨0, 0, dec 15 1⟩]
    edges := []
    faces := [[0, 1, 2], [0, 2, 3], [0, 3, 4], [0, 4, 1],
              [5, 1, 2], [5, 2, 3], [5, 3, 4], [5, 4, 1]] }

/-- `Dodecahedron.get_geometry` from `src/old versions/v1.3.py`
(identical data to the `v2.py` table). -/
def Dodecahedron.get_geometry : Geometry := V2.Dodecahedron.get_geometry

/-- `Icosahedron.get_geometry` from `src/old versions/v1.3.py`
(identical data to the `v2.py` table). -/
def Icosahedron.get_geometry : Geometry := V2.Icosahedron.get_geometry

/-- `SolidBuilder.add_object` from `src/old versions/v1.3.py`: builds the mesh
from the solid's geometry, sets the object's location and uniform scale, and
assigns the material color. -/
def SolidBuilder.add_object (name : String) (g : Geometry) (color : Color4)
    (scale : ℚ) (loc : Vec3) : V2.BlenderObject :=
  { name := name
    meshVertices := g.vertices
    meshEdges := g.edges
    meshFaces := g.faces
    scale := (scale, scale, scale)
    location := loc
    color := color }

/-- The `template_data` list of `OBJECT_OT_generate_template1.execute` in
`src/old versions/v1.3.py`: each entry is the object name, the solid instance,
and the location it is placed at. -/
def template_data : List (String × Geometry × Vec3) :=
  [("Tetrahedron", Tetrahedron.get_geometry, ⟨0, 0, 0⟩),
   ("Cube", Cube.get_geometry, ⟨4, 0, 0⟩),
   ("Octahedron", Octahedron.get_geometry, ⟨-4, 0, 0⟩),
   ("Dodecahedron", Dodecahedron.get_geometry, ⟨8, 0, 0⟩),
   ("Icosahedron", Icosahedron.get_geometry, ⟨-8, 0, 0⟩)]

/-- `OBJECT_OT_generate_template1.execute` from `src/old versions/v1.3.py`:
adds one object per `template_data` entry, with the scene's current color and
scale properties. -/
def OBJECT_OT_generate_template1.execute (props : V2.PlatonicSolidProperties) :
    List V2.BlenderObject :=
  template_data.map (fun t => SolidBuilder.add_object t.1 t.2.1 props.color props.scale t.2.2)

end V1_3

/-! Mesh inspection helpers used to state the topological claims. -/

/-- The consecutive index pairs of a face in cyclic traversal order. -/
def cyclicPairs (f : List Nat) : List (Nat × Nat) :=
  f.zip (f.drop 1 ++ f.take 1)

/-- A pair of indices normalized so the smaller index comes first, naming an
undirected edge. -/
def sortPair (e : Nat × Nat) : Nat × Nat :=
  if e.1 ≤ e.2 then e else (e.2, e.1)

/-- The undirected edges traversed by one face. -/
def faceEdges (f : List Nat) : List (Nat × Nat) :=
  (cyclicPairs f).map sortPair

/-- All undirected edge traversals of a geometry, one entry per face side. -/
def allEdgeSides (g : Geometry) : List (Nat × Nat) :=
  (g.faces.map faceEdges).flatten

/-- The distinct undirected edges of a geometry. -/
def edgeList (g : Geometry) : List (Nat × Nat) :=
  (allEdgeSides g).dedup

/-- How many faces traverse a given undirected edge. -/
def facesOnEdge (g : Geometry) (e : Nat × Nat) : Nat :=
  g.faces.countP (fun f => (faceEdges f).contains e)

/-- Every edge of the geometry is traversed by exactly two distinct faces, and
appears exactly twice among all face sides (so at most once per face). -/
def closedSurface (g : Geometry) : Bool :=
  (edgeList g).all (fun e => facesOnEdge g e == 2 && (allEdgeSides g).count e == 2)

/-- Euler characteristic `V - E + F` of a geometry, edges counted from faces. -/
def eulerChar (g : Geometry) : ℤ :=
  (g.vertices.length : ℤ) - (edgeList g).length + g.faces.length

/-- Face validity from the spec's data model: every index is in range and at
least 3 pairwise-distinct indices are referenced. -/
def faceValid (vertexCount : Nat) (f : List Nat) : Bool :=
  f.all (fun i => i < vertexCount) && 3 ≤ f.dedup.length

/-- All faces of a geometry are valid. -/
def facesValid (g : Geometry) : Bool :=
  g.faces.all (faceValid g.vertices.length)

end Platonic

namespace Platonic

/-! Claim-statement helpers. -/

/-- The eight points `(±1, ±1, ±1)`, every sign combination, as enumerated by
the claim about the Cube catalog entry. -/
def cubeClaimVertices : List Vec3 :=
  [⟨1,1,1⟩, ⟨1,1,-1⟩, ⟨1,-1,1⟩, ⟨1,-1,-1⟩, ⟨-1,1,1⟩, ⟨-1,1,-1⟩, ⟨-1,-1,1⟩, ⟨-1,-1,-1⟩]

/-- The vertices of a face, looked up by index. -/
def faceCoords (g : Geometry) (f : List Nat) : List Vec3 :=
  f.filterMap (fun i => g.vertices[i]?)

/-- A face lies in one axis-aligned plane: all its vertices share the same
`±1` value in one coordinate. -/
def axisPlane (vs : List Vec3) : Bool :=
  vs.all (fun v => v.x == 1) || vs.all (fun v => v.x == -1) ||
  vs.all (fun v => v.y == 1) || vs.all (fun v => v.y == -1) ||
  vs.all (fun v => v.z == 1) || vs.all (fun v => v.z == -1)

/-- All four channels of a color lie within `[0, 1]`. -/
def Color4.inRange (c : Color4) : Prop :=
  0 ≤ c.r ∧ c.r ≤ 1 ∧ 0 ≤ c.g ∧ c.g ≤ 1 ∧ 0 ≤ c.b ∧ c.b ≤ 1 ∧ 0 ≤ c.a ∧ c.a ≤ 1

instance (c : Color4) : Decidable c.inRange := by
  unfold Color4.inRange
  exact inferInstance

/-! Helper lemmas. -/

lemma dictGet_key (k : SolidKind) :
    V2.dictGet V2.solid_classes k.key .TETRAHEDRON = k := by
  cases k <;> rfl

lemma execute_key (k : SolidKind) (c : Color4) (s : ℚ) (b : Bool) :
    V2.OBJECT_OT_generate_platonic.execute ⟨k.key, c, s, b⟩ =
      ⟨k.key, (V2.get_geometry k).vertices, (V2.get_geometry k).edges,
       (V2.get_geometry k).faces, (s, s, s), ⟨0, 0, 0⟩, c⟩ := by
  cases k <;> rfl

lemma worldVertices_mk (n : String) (vs : List Vec3) (es : List (Nat × Nat))
    (fs : List (List Nat)) (s : ℚ) (c : Color4) :
    (V2.BlenderObject.mk n vs es fs (s, s, s) ⟨0, 0, 0⟩ c).worldVertices
      = vs.map (Vec3.smul s) := by
  show vs.map (fun v => (⟨v.x * s + 0, v.y * s + 0, v.z * s + 0⟩ : Vec3))
      = vs.map (Vec3.smul s)
  have h : (fun v : Vec3 => (⟨v.x * s + 0, v.y * s + 0, v.z * s + 0⟩ : Vec3))
      = Vec3.smul s := by
    funext v
    cases v
    simp [Vec3.smul, mul_comm]
  rw [h]

lemma map_smul_one (vs : List Vec3) : vs.map (Vec3.smul 1) = vs := by
  have h : Vec3.smul 1 = id := by
    funext v
    cases v
    simp [Vec3.smul]
  rw [h, List.map_id]

lemma floatPropSet_of_mem (lo hi v : ℚ) (h1 : lo ≤ v) (h2 : v ≤ hi) :
    V2.floatPropSet lo hi v = v := by
  unfold V2.floatPropSet
  rw [min_eq_right h2, max_eq_right h1]

lemma floatPropSet_low (lo hi v : ℚ) (hv : v ≤ lo) (hlo : lo ≤ hi) :
    V2.floatPropSet lo hi v = lo := by
  unfold V2.floatPropSet
  rw [min_eq_right (hv.trans hlo), max_eq_left hv]

lemma floatPropSet_mem (lo hi v : ℚ) (h : lo ≤ hi) :
    lo ≤ V2.floatPropSet lo hi v ∧ V2.floatPropSet lo hi v ≤ hi :=
  ⟨le_max_left _ _, max_le h (min_le_left _ _)⟩

/-! Claim theorems. -/

/-- C1: for every SolidKind, the geometry returned by `get_geometry` has the
fixed vertex and face counts: Tetrahedron 4 vertices and 4 faces, Cube 8 and 6,
Octahedron 6 and 8, Dodecahedron 20 and 12, Icosahedron 12 and 20. -/
theorem C1_fixed_counts :
    (V2.get_geometry .TETRAHEDRON).vertices.length = 4 ∧
    (V2.get_geometry .TETRAHEDRON).faces.length = 4 ∧
    (V2.get_geometry .CUBE).vertices.length = 8 ∧
    (V2.get_geometry .CUBE).faces.length = 6 ∧
    (V2.get_geometry .OCTAHEDRON).vertices.length = 6 ∧
    (V2.get_geometry .OCTAHEDRON).faces.length = 8 ∧
    (V2.get_geometry .DODECAHEDRON).vertices.length = 20 ∧
    (V2.get_geometry .DODECAHEDRON).faces.length = 12 ∧
    (V2.get_geometry .ICOSAHEDRON).vertices.length = 12 ∧
    (V2.get_geometry .ICOSAHEDRON).faces.length = 20 := by
  decide

/-- C2: for every SolidKind, every face of its geometry references only vertex
indices strictly below the vertex count and contains at least 3
pairwise-distinct indices. -/
theorem C2_faces_valid : ∀ k : SolidKind, facesValid (V2.get_geometry k) = true := by
  intro k
  cases k <;> decide

/-- C3: for every SolidKind and every scale s > 0, the generate operator yields
world-space vertices equal to the canonical catalog vertices each multiplied
componentwise by s, with face and edge lists identical to the canonical ones;
at s = 1 the world-space vertices reproduce the canonical catalog exactly. -/
theorem C3_scaling (k : SolidKind) (c : Color4) (b : Bool) (s : ℚ) (hs : 0 < s) :
    (V2.OBJECT_OT_generate_platonic.execute ⟨k.key, c, s, b⟩).worldVertices
        = (V2.get_geometry k).vertices.map (Vec3.smul s) ∧
    (V2.OBJECT_OT_generate_platonic.execute ⟨k.key, c, s, b⟩).meshFaces
        = (V2.get_geometry k).faces ∧
    (V2.OBJECT_OT_generate_platonic.execute ⟨k.key, c, s, b⟩).meshEdges
        = (V2.get_geometry k).edges ∧
    (s = 1 → (V2.OBJECT_OT_generate_platonic.execute ⟨k.key, c, s, b⟩).worldVertices
        = (V2.get_geometry k).vertices) := by
  rw [execute_key]
  refine ⟨worldVertices_mk _ _ _ _ _ _, rfl, rfl, ?_⟩
  rintro rfl
  rw [worldVertices_mk, map_smul_one]

/-- Witness for C3 at the Cube with scale 2. -/
theorem C3_scaling_witness :
    (0 : ℚ) < 2 ∧
    ((V2.OBJECT_OT_generate_platonic.execute
        ⟨SolidKind.CUBE.key, ⟨1, 1, 1, 1⟩, 2, false⟩).worldVertices
        = (V2.get_geometry .CUBE).vertices.map (Vec3.smul 2) ∧
     (V2.OBJECT_OT_generate_platonic.execute
        ⟨SolidKind.CUBE.key, ⟨1, 1, 1, 1⟩, 2, false⟩).meshFaces
        = (V2.get_geometry .CUBE).faces ∧
     (V2.OBJECT_OT_generate_platonic.execute
        ⟨SolidKind.CUBE.key, ⟨1, 1, 1, 1⟩, 2, false⟩).meshEdges
        = (V2.get_geometry .CUBE).edges ∧
     ((2 : ℚ) = 1 → (V2.OBJECT_OT_generate_platonic.execute
        ⟨SolidKind.CUBE.key, ⟨1, 1, 1, 1⟩, 2, false⟩).worldVertices
        = (V2.get_geometry .CUBE).vertices)) :=
  ⟨by decide, C3_scaling .CUBE ⟨1, 1, 1, 1⟩ false 2 (by decide)⟩

/-- C4 counterexample: for the unrecognized kind "SPHERE", generation does not
fail: `solid_classes.get` falls back to the Tetrahedron class and a full
4-vertex Tetrahedron descriptor is produced. -/
theorem C4_counterexample :
    V2.dictGet V2.solid_classes ("SPHERE") .TETRAHEDRON = SolidKind.TETRAHEDRON ∧
    (V2.OBJECT_OT_generate_platonic.execute
        ⟨"SPHERE", ⟨1, 1, 1, 1⟩, 1, false⟩).meshVertices
        = V2.Tetrahedron.get_geometry.vertices ∧
    (V2.OBJECT_OT_generate_platonic.execute
        ⟨"SPHERE", ⟨1, 1, 1, 1⟩, 1, false⟩).meshVertices.length = 4 :=
  ⟨rfl, rfl, rfl⟩

/-- C4 (amended): for every shape key not among the five registered kinds,
generation succeeds via the dict-get fallback, returning the Tetrahedron
geometry instead of failing with an InvalidArgument error. -/
theorem C4_default_fallback (key : String) (c : Color4) (s : ℚ) (b : Bool)
    (h : key ∉ V2.solid_classes.map Prod.fst) :
    V2.dictGet V2.solid_classes key .TETRAHEDRON = SolidKind.TETRAHEDRON ∧
    (V2.OBJECT_OT_generate_platonic.execute ⟨key, c, s, b⟩).meshVertices
        = V2.Tetrahedron.get_geometry.vertices ∧
    (V2.OBJECT_OT_generate_platonic.execute ⟨key, c, s, b⟩).meshFaces
        = V2.Tetrahedron.get_geometry.faces := by
  simp only [V2.solid_classes, List.map_cons, List.map_nil, List.mem_cons,
    List.not_mem_nil, or_false, not_or] at h
  obtain ⟨h1, h2, h3, h4, h5⟩ := h
  have hfind : (V2.solid_classes.find? (fun p => p.1 == key)) = none := by
    rw [List.find?_eq_none]
    intro p hp
    simp only [V2.solid_classes, List.mem_cons, List.not_mem_nil, or_false] at hp
    have hne : p.1 ≠ key := by
      rcases hp with rfl | rfl | rfl | rfl | rfl
      · exact fun he => h1 he.symm
      · exact fun he => h2 he.symm
      · exact fun he => h3 he.symm
      · exact fun he => h4 he.symm
      · exact fun he => h5 he.symm
    simpa using hne
  have hd : V2.dictGet V2.solid_classes key .TETRAHEDRON = SolidKind.TETRAHEDRON := by
    unfold V2.dictGet
    rw [hfind]
  refine ⟨hd, ?_, ?_⟩
  · show (V2.get_geometry (V2.dictGet V2.solid_classes key .TETRAHEDRON)).vertices = _
    rw [hd]
    rfl
  · show (V2.get_geometry (V2.dictGet V2.solid_classes key .TETRAHEDRON)).faces = _
    rw [hd]
    rfl

/-- Witness for the amended C4 at the unregistered key "SPHERE". -/
theorem C4_default_fallback_witness :
    ("SPHERE" ∉ V2.solid_classes.map Prod.fst) ∧
    (V2.dictGet V2.solid_classes ("SPHERE") .TETRAHEDRON = SolidKind.TETRAHEDRON ∧
     (V2.OBJECT_OT_generate_platonic.execute
        ⟨"SPHERE", ⟨0, 0, 0, 1⟩, 2, true⟩).meshVertices
        = V2.Tetrahedron.get_geometry.vertices ∧
     (V2.OBJECT_OT_generate_platonic.execute
        ⟨"SPHERE", ⟨0, 0, 0, 1⟩, 2, true⟩).meshFaces
        = V2.Tetrahedron.get_geometry.faces) :=
  ⟨by decide, C4_default_fallback ("SPHERE") ⟨0, 0, 0, 1⟩ 2 true (by decide)⟩

/-- C5 counterexample: assigning scale 0 or -1 does not fail: the property
clamps to the declared minimum 0.1, and generation still produces the full
4-vertex Tetrahedron descriptor. -/
theorem C5_counterexample :
    V2.scaleSet 0 = dec 1 1 ∧ V2.scaleSet (-1) = dec 1 1 ∧
    (V2.OBJECT_OT_generate_platonic.execute
        (V2.mkProps ("TETRAHEDRON") ⟨1, 1, 1, 1⟩ 0 false)).meshVertices.length = 4 := by
  decide

/-- C5 (amended): for every scale s ≤ 0, the scale property stores the clamped
minimum 0.1 and generation succeeds, producing the solid's full nonempty
vertex list; no InvalidArgument failure occurs. -/
theorem C5_clamped_scale (k : SolidKind) (c : Color4) (b : Bool) (s : ℚ) (hs : s ≤ 0) :
    (V2.mkProps k.key c s b).scale = dec 1 1 ∧
    (V2.OBJECT_OT_generate_platonic.execute (V2.mkProps k.key c s b)).meshVertices
        = (V2.get_geometry k).vertices ∧
    (V2.get_geometry k).vertices ≠ [] := by
  have h01 : (0 : ℚ) ≤ dec 1 1 := by decide
  refine ⟨?_, ?_, ?_⟩
  · show V2.scaleSet s = dec 1 1
    exact floatPropSet_low _ _ _ (hs.trans h01) (by decide)
  · show (V2.get_geometry (V2.dictGet V2.solid_classes k.key .TETRAHEDRON)).vertices = _
    rw [dictGet_key]
  · cases k <;> decide

/-- Witness for the amended C5 at scale -1 on the Tetrahedron. -/
theorem C5_clamped_scale_witness :
    ((-1 : ℚ) ≤ 0) ∧
    ((V2.mkProps SolidKind.TETRAHEDRON.key ⟨1, 1, 1, 1⟩ (-1) false).scale = dec 1 1 ∧
     (V2.OBJECT_OT_generate_platonic.execute
        (V2.mkProps SolidKind.TETRAHEDRON.key ⟨1, 1, 1, 1⟩ (-1) false)).meshVertices
        = (V2.get_geometry .TETRAHEDRON).vertices ∧
     (V2.get_geometry .TETRAHEDRON).vertices ≠ []) :=
  ⟨by decide, C5_clamped_scale .TETRAHEDRON ⟨1, 1, 1, 1⟩ false (-1) (by decide)⟩

/-- C6 counterexample: the color (1.5, 0, 0, 1) is not rejected: the color
property clamps the out-of-range channel to 1, the build succeeds, and the
produced object carries the clamped color (1, 0, 0, 1). -/
theorem C6_counterexample :
    (V2.mkProps ("CUBE") ⟨dec 15 1, 0, 0, 1⟩ 1 false).color = ⟨1, 0, 0, 1⟩ ∧
    (V2.OBJECT_OT_generate_platonic.execute
        (V2.mkProps ("CUBE") ⟨dec 15 1, 0, 0, 1⟩ 1 false)).color = ⟨1, 0, 0, 1⟩ ∧
    (V2.OBJECT_OT_generate_platonic.execute
        (V2.mkProps ("CUBE") ⟨dec 15 1, 0, 0, 1⟩ 1 false)).meshVertices.length = 8 := by
  decide

/-- C6 (amended): color channels are clamped componentwise into [0, 1] by the
property (never rejected), and a color already within range is carried through
the build exactly. -/
theorem C6_clamped_color (k : SolidKind) (s : ℚ) (b : Bool) (c : Color4) :
    (V2.colorSet c).inRange ∧
    (c.inRange → (V2.mkProps k.key c s b).color = c ∧
      (V2.OBJECT_OT_generate_platonic.execute (V2.mkProps k.key c s b)).color = c) := by
  have h01 : (0 : ℚ) ≤ 1 := by decide
  constructor
  · exact ⟨(floatPropSet_mem 0 1 c.r h01).1, (floatPropSet_mem 0 1 c.r h01).2,
      (floatPropSet_mem 0 1 c.g h01).1, (floatPropSet_mem 0 1 c.g h01).2,
      (floatPropSet_mem 0 1 c.b h01).1, (floatPropSet_mem 0 1 c.b h01).2,
      (floatPropSet_mem 0 1 c.a h01).1, (floatPropSet_mem 0 1 c.a h01).2⟩
  · rintro ⟨hr0, hr1, hg0, hg1, hb0, hb1, ha0, ha1⟩
    have hc : V2.colorSet c = c := by
      cases c
      show (⟨V2.floatPropSet 0 1 _, V2.floatPropSet 0 1 _,
             V2.floatPropSet 0 1 _, V2.floatPropSet 0 1 _⟩ : Color4) = _
      rw [floatPropSet_of_mem _ _ _ hr0 hr1, floatPropSet_of_mem _ _ _ hg0 hg1,
          floatPropSet_of_mem _ _ _ hb0 hb1, floatPropSet_of_mem _ _ _ ha0 ha1]
    exact ⟨hc, hc⟩

/-- Witness for the amended C6 at the in-range color (0.8, 0.8, 0.8, 1). -/
theorem C6_clamped_color_witness :
    Color4.inRange ⟨dec 8 1, dec 8 1, dec 8 1, 1⟩ ∧
    ((V2.mkProps SolidKind.OCTAHEDRON.key ⟨dec 8 1, dec 8 1, dec 8 1, 1⟩ 1 false).color
        = ⟨dec 8 1, dec 8 1, dec 8 1, 1⟩ ∧
     (V2.OBJECT_OT_generate_platonic.execute
        (V2.mkProps SolidKind.OCTAHEDRON.key ⟨dec 8 1, dec 8 1, dec 8 1, 1⟩ 1 false)).color
        = ⟨dec 8 1, dec 8 1, dec 8 1, 1⟩) :=
  ⟨by decide, (C6_clamped_color .OCTAHEDRON 1 false ⟨dec 8 1, dec 8 1, dec 8 1, 1⟩).2 (by decide)⟩

/-- C7: the batch template operator produces exactly 5 build requests, one per
solid in the fixed order Tetrahedron, Cube, Octahedron, Dodecahedron,
Icosahedron, placed at translations 0, +4, -4, +8, -8 along the x axis, and
the 5 translations are pairwise distinct. -/
theorem C7_template_layout (props : V2.PlatonicSolidProperties) :
    (V1_3.OBJECT_OT_generate_template1.execute props).length = 5 ∧
    (V1_3.OBJECT_OT_generate_template1.execute props).map V2.BlenderObject.name
        = ["Tetrahedron", "Cube", "Octahedron", "Dodecahedron", "Icosahedron"] ∧
    (V1_3.OBJECT_OT_generate_template1.execute props).map V2.BlenderObject.meshVertices
        = [V1_3.Tetrahedron.get_geometry.vertices, V1_3.Cube.get_geometry.vertices,
           V1_3.Octahedron.get_geometry.vertices, V1_3.Dodecahedron.get_geometry.vertices,
           V1_3.Icosahedron.get_geometry.vertices] ∧
    (V1_3.OBJECT_OT_generate_template1.execute props).map V2.BlenderObject.location
        = [⟨0, 0, 0⟩, ⟨4, 0, 0⟩, ⟨-4, 0, 0⟩, ⟨8, 0, 0⟩, ⟨-8, 0, 0⟩] ∧
    ((V1_3.OBJECT_OT_generate_template1.execute props).map V2.BlenderObject.location).Nodup ∧
    ((V1_3.OBJECT_OT_generate_template1.execute props).map V2.BlenderObject.location).all
        (fun l => l.y == 0 && l.z == 0) = true := by
  have hloc : (V1_3.OBJECT_OT_generate_template1.execute props).map V2.BlenderObject.location
      = [⟨0, 0, 0⟩, ⟨4, 0, 0⟩, ⟨-4, 0, 0⟩, ⟨8, 0, 0⟩, ⟨-8, 0, 0⟩] := rfl
  refine ⟨rfl, rfl, rfl, hloc, ?_, ?_⟩
  · rw [hloc]
    decide
  · rw [hloc]
    decide

/-- C8: the Cube catalog entry consists of exactly the 8 vertices
`(±1, ±1, ±1)` (every sign combination, each once) and 6 quadrilateral faces,
each lying in one axis-aligned plane. -/
theorem C8_cube_catalog :
    List.Perm V2.Cube.get_geometry.vertices cubeClaimVertices ∧
    V2.Cube.get_geometry.vertices.Nodup ∧
    V2.Cube.get_geometry.faces.length = 6 ∧
    V2.Cube.get_geometry.faces.all
        (fun f => f.length == 4 && axisPlane (faceCoords V2.Cube.get_geometry f)) = true := by
  decide

/-- C9: the Tetrahedron catalog entry has 4 vertices and exactly 4 triangular
faces whose index sets are precisely the four 3-element subsets of
{0, 1, 2, 3}, each appearing once. -/
theorem C9_tetra_faces :
    V2.Tetrahedron.get_geometry.vertices.length = 4 ∧
    V2.Tetrahedron.get_geometry.faces.length = 4 ∧
    (V2.Tetrahedron.get_geometry.faces.map (fun f => f.toFinset)).toFinset
        = (Finset.range 4).powersetCard 3 ∧
    (V2.Tetrahedron.get_geometry.faces.map (fun f => f.toFinset)).Nodup ∧
    V2.Tetrahedron.get_geometry.faces.all
        (fun f => f.length == 3 && f.dedup.length == 3) = true := by
  decide

/-- C10: for every SolidKind, every undirected edge of the face list occurs in
exactly two distinct faces (a closed watertight surface), and the vertex, edge
and face counts satisfy V - E + F = 2. -/
theorem C10_closed_surface : ∀ k : SolidKind,
    closedSurface (V2.get_geometry k) = true ∧ eulerChar (V2.get_geometry k) = 2 := by
  intro k
  cases k <;> exact ⟨by decide, by decide⟩

end Platonic
